import Mathlib

/-!
Verification development for the resilience & authentication core of the
`vertex_spec_adapter` package: circuit breaker, retry/backoff policy,
model registry and authentication manager, shallowly embedded from the
Python source.  Time is modelled as natural-number seconds; Python
exceptions are modelled as values of explicit error types; the tenacity
retry decorator is modelled by the recursive loop it expands into
(stop_after_attempt, retry_if_exception_type, wait_exponential,
reraise=True).
-/

namespace VertexSpecAdapter

/-- Decidable equality for `Except`, used to evaluate embedded functions at
concrete inputs. -/
instance {ε α : Type} [DecidableEq ε] [DecidableEq α] : DecidableEq (Except ε α) := fun a b =>
  match a, b with
  | .ok x, .ok y =>
      if h : x = y then isTrue (by rw [h]) else isFalse (by intro hc; cases hc; exact h rfl)
  | .error x, .error y =>
      if h : x = y then isTrue (by rw [h]) else isFalse (by intro hc; cases hc; exact h rfl)
  | .ok _, .error _ => isFalse (by intro hc; cases hc)
  | .error _, .ok _ => isFalse (by intro hc; cases hc)

/-! ## Exception hierarchy (core/exceptions.py)

`APIError.__init__` stores message, optional status code, optional
retry-after hint, a retryable flag and an optional suggested fix. -/

structure APIError where
  message : String
  status_code : Option Nat
  retry_after : Option Nat
  retryable : Bool
  suggested_fix : Option String
  deriving Repr, DecidableEq

/-- Embedding of `AuthenticationError` (core/exceptions.py): a message, an
optional suggested fix and an optional machine-readable code.  Single-quote
characters appearing inside Python message strings are elided from the
embedded string literals throughout this file. -/
structure AuthenticationError where
  message : String
  suggested_fix : Option String
  code : Option String
  deriving Repr, DecidableEq

/-- Embedding of `ModelNotFoundError` (core/exceptions.py): an `APIError`
subclass with
status 404 carrying `model_id`, `region` and `available_regions`.  The
constructor normalises `available_regions` with Python's
`available_regions or []`. -/
structure ModelNotFoundError where
  message : String
  status_code : Option Nat
  suggested_fix : Option String
  model_id : String
  region : String
  available_regions : List String
  deriving Repr, DecidableEq

/-- Python truthiness of an optional list: `None` and `[]` are falsy. -/
def listTruthy (o : Option (List String)) : Bool :=
  match o with
  | none => false
  | some l => !l.isEmpty

/-- Python truthiness of an optional string: `None` and `""` are falsy. -/
def strTruthy (o : Option String) : Bool :=
  match o with
  | none => false
  | some s => !s.isEmpty

/-- Constructor `ModelNotFoundError.__init__`: when no suggested fix is given and
`available_regions` is truthy, synthesise the region suggestion; pass
`status_code=404` to `APIError.__init__`; store
`available_regions or []`. -/
def mkModelNotFoundError (message : String) (model_id : String) (region : String)
    (available_regions : Option (List String)) (suggested_fix : Option String) :
    ModelNotFoundError :=
  let sf : Option String :=
    if !(strTruthy suggested_fix) && listTruthy available_regions then
      some ("Use one of these regions: " ++ String.intercalate ", " (available_regions.getD []))
    else suggested_fix
  { message := message
    status_code := some 404
    suggested_fix := sf
    model_id := model_id
    region := region
    available_regions := available_regions.getD [] }

/-! ## Circuit breaker (utils/retry.py)

The breaker is embedded with its default `expected_exception = Exception`,
so every failure of the wrapped function routes through `_on_failure`.
`datetime.utcnow()` is modelled by a `now : Nat` argument in seconds. -/

inductive CircuitState where
  | CLOSED
  | OPEN
  | HALF_OPEN
  deriving Repr, DecidableEq

structure CircuitBreaker where
  failure_threshold : Nat
  recovery_timeout : Nat
  state : CircuitState
  failure_count : Nat
  last_failure_time : Option Nat
  success_count : Nat
  deriving Repr, DecidableEq

/-- Constructor `CircuitBreaker.__init__`: state CLOSED, counters zero, no
failure time. -/
def CircuitBreaker.init (failure_threshold recovery_timeout : Nat) : CircuitBreaker :=
  { failure_threshold := failure_threshold
    recovery_timeout := recovery_timeout
    state := .CLOSED
    failure_count := 0
    last_failure_time := none
    success_count := 0 }

/-- Method `CircuitBreaker._should_attempt_recovery`: true when no failure has been
recorded, else when `now - last_failure_time >= recovery_timeout`. -/
def CircuitBreaker.should_attempt_recovery (b : CircuitBreaker) (now : Nat) : Bool :=
  match b.last_failure_time with
  | none => true
  | some t => b.recovery_timeout ≤ now - t

/-- Method `CircuitBreaker._on_success`: in HALF_OPEN, increment `success_count` and
close (resetting `failure_count`) once it reaches 1; in CLOSED, reset
`failure_count`. -/
def CircuitBreaker.on_success (b : CircuitBreaker) : CircuitBreaker :=
  match b.state with
  | .HALF_OPEN =>
      let b1 := { b with success_count := b.success_count + 1 }
      if 1 ≤ b1.success_count then
        { b1 with state := .CLOSED, failure_count := 0 }
      else b1
  | .CLOSED => { b with failure_count := 0 }
  | .OPEN => b

/-- Method `CircuitBreaker._on_failure`: increment `failure_count`, stamp
`last_failure_time`; HALF_OPEN opens on any failure; CLOSED opens once
`failure_count >= failure_threshold`. -/
def CircuitBreaker.on_failure (b : CircuitBreaker) (now : Nat) : CircuitBreaker :=
  let b1 := { b with failure_count := b.failure_count + 1, last_failure_time := some now }
  match b1.state with
  | .HALF_OPEN => { b1 with state := .OPEN }
  | .CLOSED =>
      if b1.failure_threshold ≤ b1.failure_count then { b1 with state := .OPEN }
      else b1
  | .OPEN => b1

/-- Outcome of one `CircuitBreaker.call`: short-circuited with the synthetic
breaker-open `APIError`, a returned value, or the wrapped function's own
exception re-raised. -/
inductive CallResult (ε α : Type) where
  | breakerOpen (e : APIError)
  | ok (a : α)
  | fnError (e : ε)
  deriving Repr, DecidableEq

/-- The exact `APIError` raised by `CircuitBreaker.call` when it
short-circuits (retry.py lines 99-104). -/
def breakerOpenError (b : CircuitBreaker) : APIError :=
  { message := "Circuit breaker is OPEN. Service is unavailable."
    status_code := some 503
    retry_after := none
    retryable := true
    suggested_fix := some ("Wait " ++ toString b.recovery_timeout ++ " seconds and retry") }

/-- Shared tail of `CircuitBreaker.call`: invoke the function once and apply
the success/failure handler.  The third component counts invocations of the
wrapped function. -/
def CircuitBreaker.runFn {ε α : Type} (b : CircuitBreaker) (now : Nat)
    (fn : Except ε α) : CallResult ε α × CircuitBreaker × Nat :=
  match fn with
  | .ok a => (.ok a, b.on_success, 1)
  | .error e => (.fnError e, b.on_failure now, 1)

/-- Method `CircuitBreaker.call`: if OPEN and recovery is not yet due, raise the
breaker-open `APIError` without invoking the function; if OPEN and recovery
is due, flip to HALF_OPEN (zeroing `success_count`) and invoke; otherwise
invoke directly.  The wrapped function's behaviour is supplied as an
`Except` value; the third component counts its invocations. -/
def CircuitBreaker.call {ε α : Type} (b : CircuitBreaker) (now : Nat)
    (fn : Except ε α) : CallResult ε α × CircuitBreaker × Nat :=
  match b.state with
  | .OPEN =>
      if b.should_attempt_recovery now then
        CircuitBreaker.runFn { b with state := .HALF_OPEN, success_count := 0 } now fn
      else
        (.breakerOpen (breakerOpenError b), b, 0)
  | _ => CircuitBreaker.runFn b now fn

/-! ## Retry decorators (utils/retry.py)

The exceptions a wrapped function can raise are modelled by `PyExc`:
either an instance of the `APIError` family (`APIError` itself,
`RateLimitError`, `QuotaExceededError`) or any other Python exception
(`otherExc`, e.g. `ValueError`), which carries no `retry_after`
attribute. -/

inductive PyExc where
  | apiError (e : APIError)
  | rateLimit (e : APIError)
  | quota (e : APIError)
  | otherExc
  deriving Repr, DecidableEq

/-- Constructor `RateLimitError.__init__` (core/exceptions.py): default
suggested fix depends on `retry_after` truthiness; status 429,
`retryable=True`. -/
def mkRateLimitError (message : String) (retry_after : Option Nat)
    (suggested_fix : Option String) : APIError :=
  let sf : Option String :=
    if !(strTruthy suggested_fix) then
      match retry_after with
      | some r =>
          if r ≠ 0 then some ("Wait " ++ toString r ++ " seconds and retry")
          else some "Wait a few seconds and retry"
      | none => some "Wait a few seconds and retry"
    else suggested_fix
  { message := message
    status_code := some 429
    retry_after := retry_after
    retryable := true
    suggested_fix := sf }

/-- Constructor `QuotaExceededError.__init__` (core/exceptions.py): default
suggested fix depends on `retry_after` truthiness; status 429,
`retryable=True`. -/
def mkQuotaExceededError (message : String) (retry_after : Option Nat)
    (suggested_fix : Option String) : APIError :=
  let sf : Option String :=
    if !(strTruthy suggested_fix) then
      match retry_after with
      | some r =>
          if r ≠ 0 then
            some ("Wait " ++ toString r ++
              " seconds and retry, or check GCP console for quota limits")
          else some "Check GCP console for quota limits or wait before retrying"
      | none => some "Check GCP console for quota limits or wait before retrying"
    else suggested_fix
  { message := message
    status_code := some 429
    retry_after := retry_after
    retryable := true
    suggested_fix := sf }

/-- Python `isinstance(e, (APIError, RateLimitError, QuotaExceededError))`:
true for every member of the `APIError` family (subclasses included). -/
def PyExc.isAPIErrorFamily : PyExc → Bool
  | .otherExc => false
  | _ => true

/-- Attribute access `e.retry_after`, available on the `APIError` family
only. -/
def PyExc.retryAfter : PyExc → Option Nat
  | .apiError e => e.retry_after
  | .rateLimit e => e.retry_after
  | .quota e => e.retry_after
  | .otherExc => none

/-- Function `should_retry` from `retry_on_transient_errors`
(retry.py lines 222-230): rate-limit and quota errors are transient; a plain
`APIError` is transient only when its status code is one of
429/500/502/503/504 and its `retryable` flag is set; everything else is
not. -/
def should_retry : PyExc → Bool
  | .rateLimit _ => true
  | .quota _ => true
  | .apiError e =>
      match e.status_code with
      | some s => if s ∈ [429, 500, 502, 503, 504] then e.retryable else false
      | none => false
  | .otherExc => false

/-- Tenacity `wait_exponential(multiplier, max, exp_base)` evaluated at a
1-based `attempt_number`: `max(max(0, min), min(multiplier *
exp_base ** (attempt_number - 1), max))` with the default `min = 0`. -/
def wait_exponential (multiplier maxw exp_base : ℚ) (attempt_number : Nat) : ℚ :=
  max 0 (min (multiplier * exp_base ^ (attempt_number - 1)) maxw)

/-- Sleep issued by the inner wrapper when the caught exception carries a
truthy `retry_after` (`hasattr(e, retry_after) and e.retry_after` followed by
`time.sleep(e.retry_after)`). -/
def hintSleep (e : PyExc) : List ℚ :=
  match e.retryAfter with
  | some r => if r ≠ 0 then [(r : ℚ)] else []
  | none => []

/-- Wrapper sleep of `retry_with_backoff` (retry.py lines 196-203): the
wrapper catches only `retryable_errors` (the default tuple is the whole
`APIError` family) and sleeps the `retry_after` hint before re-raising. -/
def backoff_wrapper_sleep (e : PyExc) : List ℚ :=
  if e.isAPIErrorFamily then hintSleep e else []

/-- Wrapper sleep of `retry_on_transient_errors` (retry.py lines 243-252):
the wrapper catches every exception but sleeps the hint only when
`should_retry` holds. -/
def transient_wrapper_sleep (e : PyExc) : List ℚ :=
  if should_retry e then hintSleep e else []

/-- The loop the tenacity `@retry(stop=stop_after_attempt(max_retries + 1),
wait=..., retry=retry_if_exception_type(...), reraise=True)` decorator
expands into.  `f k` is the outcome of the `(k+1)`-th invocation of the
wrapped function; `rem` is the number of retries still allowed.  Returns
the final outcome (`reraise=True` re-raises the original exception when the
budget is exhausted), the number of invocations of the wrapped function,
and the ordered list of sleeps performed (wrapper hint sleeps and tenacity
waits). -/
def tenacityLoop {α : Type} (retryPred : PyExc → Bool) (wrapperSleep : PyExc → List ℚ)
    (waitFn : Nat → ℚ) (f : Nat → Except PyExc α) : Nat → Nat → Except PyExc α × Nat × List ℚ
  | k, 0 =>
      match f k with
      | .ok a => (.ok a, 1, [])
      | .error e => (.error e, 1, wrapperSleep e)
  | k, rem' + 1 =>
      match f k with
      | .ok a => (.ok a, 1, [])
      | .error e =>
          if retryPred e then
            let r := tenacityLoop retryPred wrapperSleep waitFn f (k + 1) rem'
            (r.1, r.2.1 + 1, wrapperSleep e ++ waitFn k :: r.2.2)
          else (.error e, 1, wrapperSleep e)

/-- Decorator `retry_with_backoff(max_retries, initial_wait, max_wait,
exponential_base)` with its default `retryable_errors = (RateLimitError,
QuotaExceededError, APIError)`, applied to a function whose successive
invocation outcomes are `f 0, f 1, ...`. -/
def retry_with_backoff_run {α : Type} (max_retries : Nat)
    (initial_wait max_wait exponential_base : ℚ) (f : Nat → Except PyExc α) :
    Except PyExc α × Nat × List ℚ :=
  tenacityLoop PyExc.isAPIErrorFamily backoff_wrapper_sleep
    (fun k => wait_exponential initial_wait max_wait exponential_base (k + 1)) f 0 max_retries

/-- Decorator `retry_on_transient_errors(max_retries, initial_wait,
max_wait)`: the tenacity retry predicate is
`retry_if_exception_type((APIError, RateLimitError, QuotaExceededError))`
— the whole family, not `should_retry` — and `wait_exponential` keeps its
default `exp_base = 2`. -/
def retry_on_transient_errors_run {α : Type} (max_retries : Nat)
    (initial_wait max_wait : ℚ) (f : Nat → Except PyExc α) :
    Except PyExc α × Nat × List ℚ :=
  tenacityLoop PyExc.isAPIErrorFamily transient_wrapper_sleep
    (fun k => wait_exponential initial_wait max_wait 2 (k + 1)) f 0 max_retries

/-- Definition following the SPEC words (for the refinement check of the
backoff wait): the wait before retry `i` is the exception's own explicit
retry-after hint when present, else `min(maxWait, initialWait * base^i)`;
the two are alternatives. -/
def spec_retry_wait (initial_wait max_wait exp_base : ℚ) (retry_after : Option Nat)
    (i : Nat) : ℚ :=
  match retry_after with
  | some r => (r : ℚ)
  | none => min max_wait (initial_wait * exp_base ^ i)

/-! ## Model registry (core/models.py) -/

/-- Pricing dict with optional `input`/`output` keys (per-1K/1M token
rates). -/
structure Pricing where
  input : Option ℚ
  output : Option ℚ
  deriving Repr, DecidableEq

/-- Embedding of `ModelMetadata` with the resolved field values the static
catalog constructs (every catalog entry passes an explicit
`default_region`). -/
structure ModelMetadata where
  model_id : String
  name : String
  provider : String
  access_pattern : String
  available_regions : List String
  default_region : Option String
  latest_version : Option String
  versions : List String
  context_window : Option String
  pricing : Option Pricing
  capabilities : Option (List String)
  description : Option String
  deriving Repr, DecidableEq

/-- The static catalog `ModelRegistry.MODEL_METADATA` (models.py lines
145-258), in source insertion order. -/
def MODEL_METADATA : List (String × ModelMetadata) :=
  [ ("deepseek-ai/deepseek-v3.1-maas",
     { model_id := "deepseek-ai/deepseek-v3.1-maas"
       name := "DeepSeek V3.1"
       provider := "deepseek"
       access_pattern := "maas"
       available_regions := ["us-west2"]
       default_region := some "us-west2"
       latest_version := some "latest"
       versions := ["latest"]
       context_window := none
       pricing := none
       capabilities := some ["general-purpose", "code-generation", "reasoning"]
       description := some "Advanced general-purpose model optimized for code generation and complex reasoning tasks" }),
    ("qwen/qwen3-coder-480b-a35b-instruct-maas",
     { model_id := "qwen/qwen3-coder-480b-a35b-instruct-maas"
       name := "Qwen Coder"
       provider := "qwen"
       access_pattern := "maas"
       available_regions := ["us-south1"]
       default_region := some "us-south1"
       latest_version := some "latest"
       versions := ["latest"]
       context_window := none
       pricing := some { input := some (1/10), output := some (2/5) }
       capabilities := some ["code-generation", "debugging", "code-analysis"]
       description := some "Specialized code generation model optimized for programming tasks, debugging, and code analysis" }),
    ("gemini-2.5-pro",
     { model_id := "gemini-2.5-pro"
       name := "Gemini 2.5 Pro"
       provider := "google"
       access_pattern := "native_sdk"
       available_regions := ["global"]
       default_region := some "global"
       latest_version := some "latest"
       versions := ["latest"]
       context_window := some "1M+ tokens"
       pricing := some { input := some (1/2), output := some (3/2) }
       capabilities := some ["general-purpose", "code-generation", "reasoning", "multimodal"]
       description := some "Advanced general-purpose model with strong reasoning capabilities, code generation, and multimodal support" }),
    ("deepseek-ai/deepseek-r1-0528-maas",
     { model_id := "deepseek-ai/deepseek-r1-0528-maas"
       name := "DeepSeek R1 0528"
       provider := "deepseek"
       access_pattern := "maas"
       available_regions := ["us-central1"]
       default_region := some "us-central1"
       latest_version := some "latest"
       versions := ["latest"]
       context_window := none
       pricing := none
       capabilities := some ["reasoning", "problem-solving", "chain-of-thought"]
       description := some "Reasoning-focused model with advanced chain-of-thought capabilities for complex problem-solving" }),
    ("moonshotai/kimi-k2-thinking-maas",
     { model_id := "moonshotai/kimi-k2-thinking-maas"
       name := "Kimi K2"
       provider := "moonshotai"
       access_pattern := "maas"
       available_regions := ["global"]
       default_region := some "global"
       latest_version := some "latest"
       versions := ["latest"]
       context_window := none
       pricing := none
       capabilities := some ["reasoning", "thinking", "analysis"]
       description := some "Thinking-focused model optimized for complex reasoning and analysis tasks" }),
    ("openai/gpt-oss-120b-maas",
     { model_id := "openai/gpt-oss-120b-maas"
       name := "GPT OSS 120B"
       provider := "openai"
       access_pattern := "maas"
       available_regions := ["us-central1"]
       default_region := some "us-central1"
       latest_version := some "latest"
       versions := ["latest"]
       context_window := none
       pricing := none
       capabilities := some ["general-purpose", "large-scale"]
       description := some "Large-scale open-source model for general-purpose tasks" }),
    ("meta/llama-3.1-405b-instruct-maas",
     { model_id := "meta/llama-3.1-405b-instruct-maas"
       name := "Llama 3.1"
       provider := "meta"
       access_pattern := "maas"
       available_regions := ["us-central1"]
       default_region := some "us-central1"
       latest_version := some "latest"
       versions := ["latest"]
       context_window := none
       pricing := none
       capabilities := some ["general-purpose", "instruction-following", "conversation"]
       description := some "Large-scale instruction-tuned model optimized for following instructions and general conversation" }) ]

/-- Python `str.lower()` (ASCII range, which covers every catalog key). -/
def py_lower (s : String) : String :=
  String.mk (s.data.map Char.toLower)

/-- Method `ModelRegistry.get_model_metadata`: case-insensitive dict lookup
`MODEL_METADATA.get(model_id.lower())`. -/
def get_model_metadata (model_id : String) : Option ModelMetadata :=
  MODEL_METADATA.lookup (py_lower model_id)

/-- Method `ModelRegistry.validate_model_availability` (models.py lines
333-371): unknown model raises `ModelNotFoundError` with
`available_regions=None`; known model with unsupported region raises it
with the catalog entry's `available_regions`; otherwise returns True. -/
def validate_model_availability (model_id region : String) :
    Except ModelNotFoundError Bool :=
  match get_model_metadata (py_lower model_id) with
  | none =>
      .error (mkModelNotFoundError ("Model " ++ model_id ++ " not found")
        model_id region none none)
  | some metadata =>
      if region ∈ metadata.available_regions then .ok true
      else
        .error (mkModelNotFoundError
          ("Model " ++ model_id ++ " not available in region " ++ region)
          model_id region (some metadata.available_regions) none)

/-- One element of the list `get_available_models` returns: the
`to_dict()` payload of a catalog entry plus the `available_in_region` key
that `get_available_models` always adds (`True` under a region filter,
`None` otherwise). -/
structure ModelDict where
  id : String
  name : String
  provider : String
  access_pattern : String
  available_regions : List String
  default_region : Option String
  latest_version : Option String
  versions : List String
  context_window : Option String
  pricing : Option Pricing
  capabilities : Option (List String)
  description : Option String
  available_in_region : Option Bool
  deriving Repr, DecidableEq

/-- Method `ModelMetadata.to_dict` (extended keys are optional, matching
the conditional insertion in the Python dict); `available_in_region` is not
yet set. -/
def ModelMetadata.to_dict (m : ModelMetadata) : ModelDict :=
  { id := m.model_id
    name := m.name
    provider := m.provider
    access_pattern := m.access_pattern
    available_regions := m.available_regions
    default_region := m.default_region
    latest_version := m.latest_version
    versions := m.versions
    context_window := m.context_window
    pricing := m.pricing
    capabilities := m.capabilities
    description := m.description
    available_in_region := none }

/-- The model-list construction loop of `get_available_models` (models.py
lines 298-311): iterate the catalog in order, drop models not available in
the requested region, and tag `available_in_region`. -/
def build_models (region : Option String) : List ModelDict :=
  MODEL_METADATA.filterMap fun p =>
    match region with
    | some r =>
        if r ∈ p.2.available_regions then
          some { p.2.to_dict with available_in_region := some true }
        else none
    | none => some { p.2.to_dict with available_in_region := none }

/-- Mutable state of a `ModelRegistry` instance: TTL plus the two dicts
`_cache` and `_cache_timestamp`, as insertion-ordered association lists. -/
structure ModelRegistry where
  cache_ttl : Nat
  cache : List (String × List ModelDict)
  cache_timestamp : List (String × Nat)
  deriving Repr, DecidableEq

/-- Constructor `ModelRegistry.__init__`: empty caches. -/
def ModelRegistry.init (cache_ttl : Nat) : ModelRegistry :=
  { cache_ttl := cache_ttl, cache := [], cache_timestamp := [] }

/-- Python dict assignment `d[k] = v`: replace in place when the key
exists, else append (insertion order preserved). -/
def assocSet {β : Type} (l : List (String × β)) (k : String) (v : β) :
    List (String × β) :=
  if (l.lookup k).isSome then
    l.map fun p => if p.1 == k then (p.1, v) else p
  else l ++ [(k, v)]

/-- Method `ModelRegistry.get_available_models` (models.py lines 272-319):
cache key `"{project_id}:{region or all}"`; with `use_cache` an unexpired
entry is returned as is; the rebuilt list is stored only when `use_cache`
is set.  Returns the list and the updated registry state. -/
def ModelRegistry.get_available_models (reg : ModelRegistry) (project_id : String)
    (region : Option String) (use_cache : Bool) (now : Nat) :
    List ModelDict × ModelRegistry :=
  let cache_key := project_id ++ ":" ++ region.getD "all"
  let hit : Option (List ModelDict) :=
    if use_cache then
      match reg.cache.lookup cache_key with
      | some models =>
          match reg.cache_timestamp.lookup cache_key with
          | some t => if now - t < reg.cache_ttl then some models else none
          | none => none
      | none => none
    else none
  match hit with
  | some models => (models, reg)
  | none =>
      let models := build_models region
      if use_cache then
        (models,
         { reg with
             cache := assocSet reg.cache cache_key models
             cache_timestamp := assocSet reg.cache_timestamp cache_key now })
      else (models, reg)

/-! ## Authentication manager (core/auth.py)

Filesystem contents, environment variables and the platform credential
primitives (`from_service_account_file`, `google.auth.default`,
`refresh`) are modelled by an `AuthEnv` oracle; `datetime.utcnow()` by a
`now : Nat` argument. -/

/-- The `AuthMethod` enum (schemas/config.py). -/
inductive AuthMethod where
  | SERVICE_ACCOUNT
  | USER_CREDENTIALS
  | ADC
  | AUTO
  deriving Repr, DecidableEq

/-- The three credential strategies, used to record which ones a call to
`authenticate` invoked, in order. -/
inductive Strategy where
  | service_account
  | user_credentials
  | adc
  deriving Repr, DecidableEq

/-- A Google Auth credentials object as this code observes it: an optional
`expiry`, the `expired` flag read before refreshing, whether it carries a
`service_account_email` attribute, and an opaque identity tag. -/
structure Credentials where
  expiry : Option Nat
  expired : Bool
  has_service_account_email : Bool
  tag : Nat
  deriving Repr, DecidableEq

/-- Outcome of `service_account.Credentials.from_service_account_file`:
a credentials object, a `json.JSONDecodeError`/`ValueError` (caught and
converted to a fatal `AuthenticationError`), or any other exception
(caught by the strategy's outer handler, which returns None). -/
inductive ParseOutcome where
  | ok (c : Credentials)
  | malformed
  | otherFailure
  deriving Repr, DecidableEq

/-- What the filesystem says about one path: `Path.exists()`,
`Path.is_file()`, and what loading it as a service-account key would do. -/
structure FileInfo where
  file_exists : Bool
  is_file : Bool
  parse : ParseOutcome
  deriving Repr, DecidableEq

/-- External world of `AuthenticationManager`: filesystem view, the
`GOOGLE_APPLICATION_CREDENTIALS` environment variable, the outcome of the
ambient resolver `google.auth.default` (`none` models
`DefaultCredentialsError` or any other resolver failure), and whether
`credentials.refresh(Request())` succeeds. -/
structure AuthEnv where
  files : String → FileInfo
  env_credentials_path : Option String
  default_credentials : Option Credentials
  refresh_ok : Bool

/-- Effect of a successful `credentials.refresh(Request())` on the object:
it is no longer expired. -/
def refreshCred (c : Credentials) : Credentials :=
  { c with expired := false }

/-- Embedding of `CachedCredentials` (auth.py lines 21-50) with the fields
the manager reads and writes; the constructor always receives a real
credentials object, so `credentials` is not optional here. -/
structure CachedCredentials where
  credentials : Credentials
  credential_type : String
  path : Option String
  valid : Bool
  expires_at : Option Nat
  last_validated : Option Nat
  deriving Repr, DecidableEq

/-- Constructor `CachedCredentials.__init__` plus the `cached.valid = True;
cached.last_validated = utcnow()` assignments every strategy performs
before storing the entry. -/
def mkCachedCredentials (c : Credentials) (credential_type : String)
    (path : Option String) (now : Nat) : CachedCredentials :=
  { credentials := c
    credential_type := credential_type
    path := path
    valid := true
    expires_at := c.expiry
    last_validated := some now }

/-- Truthiness-and-comparison `expiry and utcnow() >= expiry`, shared by
both expiry checks of `CachedCredentials.is_valid`. -/
def pastExpiry (expiry : Option Nat) (now : Nat) : Bool :=
  match expiry with
  | some t => t ≤ now
  | none => false

/-- Method `CachedCredentials.is_valid`: false when `expires_at` (or the
credential's own `expiry`) has passed, true otherwise. -/
def CachedCredentials.is_valid (cc : CachedCredentials) (now : Nat) : Bool :=
  if pastExpiry cc.expires_at now then false
  else if pastExpiry cc.credentials.expiry now then false
  else true

/-- The slice of `VertexConfig` the authentication manager reads. -/
structure VertexConfigSlice where
  auth_method : AuthMethod
  service_account_path : Option String
  deriving Repr, DecidableEq

/-- State of an `AuthenticationManager` instance. -/
structure AuthManager where
  config : Option VertexConfigSlice
  cached : Option CachedCredentials
  deriving Repr, DecidableEq

/-- Method `AuthenticationManager.get_credentials_path`: the
`GOOGLE_APPLICATION_CREDENTIALS` environment variable wins over the config
field. -/
def AuthManager.get_credentials_path (m : AuthManager) (env : AuthEnv) :
    Option String :=
  match env.env_credentials_path with
  | some p => some p
  | none =>
      match m.config with
      | some cfg => cfg.service_account_path
      | none => none

/-- The aggregated error raised when no strategy produced credentials
(auth.py lines 158-166). -/
def no_credentials_error : AuthenticationError :=
  { message := "No valid credentials found"
    suggested_fix := some ("Run gcloud auth login to authenticate, " ++
      "set GOOGLE_APPLICATION_CREDENTIALS environment variable, " ++
      "or provide a service account key file")
    code := some "AUTH_001" }

/-- Method `AuthenticationManager._try_service_account` (auth.py lines
168-217).  Path resolution: explicit argument, else `get_credentials_path`.
No path or a missing file skips (`.ok none`); a path that is not a regular
file, or a key file that fails to parse, raises `AuthenticationError`
(re-raised past the outer handler); any other loader or refresh failure is
swallowed by the outer `except Exception` handler and skips.  On success
the refreshed credentials are cached. -/
def AuthManager.try_service_account (m : AuthManager) (env : AuthEnv) (now : Nat)
    (credentials_path : Option String) :
    Except AuthenticationError (Option (Credentials × CachedCredentials)) :=
  let path? : Option String :=
    match credentials_path with
    | some p => some p
    | none => m.get_credentials_path env
  match path? with
  | none => .ok none
  | some path =>
      let f := env.files path
      if !f.file_exists then .ok none
      else if !f.is_file then
        .error { message := "Service account path is not a file: " ++ path
                 suggested_fix := some "Verify the path points to a valid service account key file"
                 code := some "AUTH_002" }
      else
        match f.parse with
        | .malformed =>
            .error { message := "Service account key file is invalid or corrupted"
                     suggested_fix := some "Verify service account key file is valid JSON"
                     code := some "AUTH_002" }
        | .otherFailure => .ok none
        | .ok c =>
            if c.expired && !env.refresh_ok then .ok none
            else
              let c1 := if c.expired then refreshCred c else c
              .ok (some (c1, mkCachedCredentials c1 "service_account" (some path) now))

/-- Method `AuthenticationManager._try_user_credentials` (auth.py lines
219-247): ambient resolver, skipping credentials that carry a
`service_account_email` marker; every failure (including a failed refresh)
is swallowed and skips. -/
def try_user_credentials (env : AuthEnv) (now : Nat) :
    Option (Credentials × CachedCredentials) :=
  match env.default_credentials with
  | none => none
  | some c =>
      if c.has_service_account_email then none
      else if c.expired && !env.refresh_ok then none
      else
        let c1 := if c.expired then refreshCred c else c
        some (c1, mkCachedCredentials c1 "user_credentials" none now)

/-- Method `AuthenticationManager._try_adc` (auth.py lines 249-271): same
ambient resolver without the service-account exclusion; every failure is
swallowed and skips. -/
def try_adc (env : AuthEnv) (now : Nat) :
    Option (Credentials × CachedCredentials) :=
  match env.default_credentials with
  | none => none
  | some c =>
      if c.expired && !env.refresh_ok then none
      else
        let c1 := if c.expired then refreshCred c else c
        some (c1, mkCachedCredentials c1 "adc" none now)

/-- The strategy-resolution part of `authenticate` (auth.py lines 127-166),
reached when there is no valid cached credential.  Returns the outcome, the
updated manager state and the ordered list of strategies invoked. -/
def AuthManager.authenticate_fresh (m : AuthManager) (env : AuthEnv) (now : Nat)
    (credentials_path : Option String) (auth_method : Option AuthMethod) :
    Except AuthenticationError Credentials × AuthManager × List Strategy :=
  let method : AuthMethod :=
    match auth_method with
    | some meth => meth
    | none =>
        match m.config with
        | some cfg => cfg.auth_method
        | none => .AUTO
  match method with
  | .AUTO =>
      match m.try_service_account env now credentials_path with
      | .error e => (.error e, m, [.service_account])
      | .ok (some (c, cc)) => (.ok c, { m with cached := some cc }, [.service_account])
      | .ok none =>
          match try_user_credentials env now with
          | some (c, cc) =>
              (.ok c, { m with cached := some cc },
               [.service_account, .user_credentials])
          | none =>
              match try_adc env now with
              | some (c, cc) =>
                  (.ok c, { m with cached := some cc },
                   [.service_account, .user_credentials, .adc])
              | none =>
                  (.error no_credentials_error, m,
                   [.service_account, .user_credentials, .adc])
  | .SERVICE_ACCOUNT =>
      match m.try_service_account env now credentials_path with
      | .error e => (.error e, m, [.service_account])
      | .ok (some (c, cc)) => (.ok c, { m with cached := some cc }, [.service_account])
      | .ok none => (.error no_credentials_error, m, [.service_account])
  | .USER_CREDENTIALS =>
      match try_user_credentials env now with
      | some (c, cc) => (.ok c, { m with cached := some cc }, [.user_credentials])
      | none => (.error no_credentials_error, m, [.user_credentials])
  | .ADC =>
      match try_adc env now with
      | some (c, cc) => (.ok c, { m with cached := some cc }, [.adc])
      | none => (.error no_credentials_error, m, [.adc])

/-- Method `AuthenticationManager.authenticate` (auth.py lines 99-166): a
valid cached credential is returned immediately, without invoking any
strategy; otherwise the strategy chain runs. -/
def AuthManager.authenticate (m : AuthManager) (env : AuthEnv) (now : Nat)
    (credentials_path : Option String) (auth_method : Option AuthMethod) :
    Except AuthenticationError Credentials × AuthManager × List Strategy :=
  match m.cached with
  | some cc =>
      if cc.is_valid now then (.ok cc.credentials, m, [])
      else m.authenticate_fresh env now credentials_path auth_method
  | none => m.authenticate_fresh env now credentials_path auth_method

/-! ## Theorems -/

/-- Helper: when the breaker is OPEN with a recorded failure time and fewer
than `recovery_timeout` seconds have elapsed, `_should_attempt_recovery` is
false. -/
theorem should_attempt_recovery_false (b : CircuitBreaker) (now t : Nat)
    (hlf : b.last_failure_time = some t) (h : now - t < b.recovery_timeout) :
    b.should_attempt_recovery now = false := by
  unfold CircuitBreaker.should_attempt_recovery
  rw [hlf]
  simp only [decide_eq_false_iff_not]
  omega

/-- C1 counterexample: a breaker that is OPEN with `recovery_timeout = 60`
and `last_failure_time = 0`, called at `now = 50` (10 seconds of wait
remaining), short-circuits without invoking the function — but the raised
error has `retryable = True` (the claim requires a non-retryable error) and
its guidance names the full 60-second timeout, not the remaining 10
seconds. -/
theorem C1_counterexample :
    ((⟨5, 60, .OPEN, 5, some 0, 0⟩ : CircuitBreaker).call 50
        (Except.ok () : Except Unit Unit)).2.2 = 0 ∧
    ((⟨5, 60, .OPEN, 5, some 0, 0⟩ : CircuitBreaker).call 50
        (Except.ok () : Except Unit Unit)).1 =
      .breakerOpen (breakerOpenError ⟨5, 60, .OPEN, 5, some 0, 0⟩) ∧
    (breakerOpenError ⟨5, 60, .OPEN, 5, some 0, 0⟩).retryable = true ∧
    ¬ (breakerOpenError ⟨5, 60, .OPEN, 5, some 0, 0⟩).retryable = false ∧
    (breakerOpenError ⟨5, 60, .OPEN, 5, some 0, 0⟩).suggested_fix =
      some "Wait 60 seconds and retry" ∧
    some "Wait 60 seconds and retry" ≠ some "Wait 10 seconds and retry" := by
  decide

/-- C1 (amended): whenever `call(fn)` is invoked while the breaker is OPEN
and less than `recovery_timeout` seconds have elapsed since
`last_failure_time`, it raises an APIError-shaped breaker-open error with
status 503 that is flagged retryable and whose guidance names the full
`recovery_timeout` as the wait, without invoking `fn` and without changing
breaker state. -/
theorem C1_breaker_short_circuits {ε α : Type} (b : CircuitBreaker) (now t : Nat)
    (fn : Except ε α) (hst : b.state = .OPEN)
    (hlf : b.last_failure_time = some t)
    (h : now - t < b.recovery_timeout) :
    b.call now fn = (.breakerOpen (breakerOpenError b), b, 0) ∧
    (breakerOpenError b).retryable = true ∧
    (breakerOpenError b).status_code = some 503 ∧
    (breakerOpenError b).suggested_fix =
      some ("Wait " ++ toString b.recovery_timeout ++ " seconds and retry") := by
  refine ⟨?_, rfl, rfl, rfl⟩
  have hrec := should_attempt_recovery_false b now t hlf h
  unfold CircuitBreaker.call
  rw [hst, hrec]
  simp

/-- Witness for C1 (amended) at the concrete breaker of the
counterexample. -/
theorem C1_breaker_short_circuits_witness :
    ((⟨5, 60, .OPEN, 5, some 0, 0⟩ : CircuitBreaker).call 50
        (Except.ok () : Except Unit Unit)) =
      (.breakerOpen (breakerOpenError ⟨5, 60, .OPEN, 5, some 0, 0⟩),
       (⟨5, 60, .OPEN, 5, some 0, 0⟩ : CircuitBreaker), 0) :=
  (C1_breaker_short_circuits (⟨5, 60, .OPEN, 5, some 0, 0⟩ : CircuitBreaker) 50 0
    (Except.ok ()) rfl rfl (by decide)).1

/-- C4: the reachable call-driven transitions of the breaker are exactly:
initial state CLOSED; CLOSED stays CLOSED on success with `failure_count`
reset to 0; CLOSED on failure increments `failure_count`, opening exactly
when it reaches `failure_threshold`; an OPEN breaker before the recovery
timeout short-circuits, leaving the state untouched and never invoking the
function; an OPEN breaker after the timeout lazily flips to HALF_OPEN and
invokes the wrapped function exactly once, closing (with `failure_count`
reset to 0) on success and reopening on failure; HALF_OPEN closes on
success (resetting `failure_count`) and reopens on any failure. -/
theorem C4_circuit_transitions :
    (∀ ft rt : Nat, (CircuitBreaker.init ft rt).state = .CLOSED ∧
      (CircuitBreaker.init ft rt).failure_count = 0) ∧
    (∀ (ε α : Type) (b : CircuitBreaker) (now : Nat) (a : α),
      b.state = .CLOSED →
      b.call now (Except.ok a : Except ε α) = (.ok a, { b with failure_count := 0 }, 1)) ∧
    (∀ (ε α : Type) (b : CircuitBreaker) (now : Nat) (e : ε),
      b.state = .CLOSED → b.failure_count + 1 < b.failure_threshold →
      b.call now (Except.error e : Except ε α) =
        (.fnError e,
         { b with failure_count := b.failure_count + 1, last_failure_time := some now },
         1)) ∧
    (∀ (ε α : Type) (b : CircuitBreaker) (now : Nat) (e : ε),
      b.state = .CLOSED → b.failure_threshold ≤ b.failure_count + 1 →
      b.call now (Except.error e : Except ε α) =
        (.fnError e,
         { b with state := .OPEN, failure_count := b.failure_count + 1,
                  last_failure_time := some now },
         1)) ∧
    (∀ (ε α : Type) (b : CircuitBreaker) (now : Nat) (fn : Except ε α),
      b.state = .OPEN → b.should_attempt_recovery now = false →
      b.call now fn = (.breakerOpen (breakerOpenError b), b, 0)) ∧
    (∀ (ε α : Type) (b : CircuitBreaker) (now : Nat) (a : α),
      b.state = .OPEN → b.should_attempt_recovery now = true →
      b.call now (Except.ok a : Except ε α) =
        (.ok a, { b with state := .CLOSED, failure_count := 0, success_count := 1 }, 1)) ∧
    (∀ (ε α : Type) (b : CircuitBreaker) (now : Nat) (e : ε),
      b.state = .OPEN → b.should_attempt_recovery now = true →
      b.call now (Except.error e : Except ε α) =
        (.fnError e,
         { b with state := .OPEN, success_count := 0,
                  failure_count := b.failure_count + 1, last_failure_time := some now },
         1)) ∧
    (∀ (ε α : Type) (b : CircuitBreaker) (now : Nat) (a : α),
      b.state = .HALF_OPEN →
      b.call now (Except.ok a : Except ε α) =
        (.ok a,
         { b with state := .CLOSED, failure_count := 0,
                  success_count := b.success_count + 1 },
         1)) ∧
    (∀ (ε α : Type) (b : CircuitBreaker) (now : Nat) (e : ε),
      b.state = .HALF_OPEN →
      b.call now (Except.error e : Except ε α) =
        (.fnError e,
         { b with state := .OPEN, failure_count := b.failure_count + 1,
                  last_failure_time := some now },
         1)) := by
  refine ⟨fun ft rt => ⟨rfl, rfl⟩, ?_, ?_, ?_, ?_, ?_, ?_, ?_, ?_⟩
  · intro ε α b now a hst
    simp [CircuitBreaker.call, CircuitBreaker.runFn, CircuitBreaker.on_success, hst]
  · intro ε α b now e hst hlt
    have hnot : ¬ (b.failure_threshold ≤ b.failure_count + 1) := by omega
    simp [CircuitBreaker.call, CircuitBreaker.runFn, CircuitBreaker.on_failure, hst, hnot]
  · intro ε α b now e hst hge
    simp [CircuitBreaker.call, CircuitBreaker.runFn, CircuitBreaker.on_failure, hst, hge]
  · intro ε α b now fn hst hrec
    simp [CircuitBreaker.call, hst, hrec]
  · intro ε α b now a hst hrec
    simp [CircuitBreaker.call, CircuitBreaker.runFn, CircuitBreaker.on_success, hst, hrec]
  · intro ε α b now e hst hrec
    simp [CircuitBreaker.call, CircuitBreaker.runFn, CircuitBreaker.on_failure, hst, hrec]
  · intro ε α b now a hst
    simp [CircuitBreaker.call, CircuitBreaker.runFn, CircuitBreaker.on_success, hst]
  · intro ε α b now e hst
    simp [CircuitBreaker.call, CircuitBreaker.runFn, CircuitBreaker.on_failure, hst]

/-- Witness for C4: each transition branch evaluated at a concrete
breaker. -/
theorem C4_circuit_transitions_witness :
    ((CircuitBreaker.init 5 60).state = .CLOSED ∧
      (CircuitBreaker.init 5 60).failure_count = 0) ∧
    ((⟨5, 60, .CLOSED, 3, some 0, 0⟩ : CircuitBreaker).call 7
        (Except.ok () : Except Unit Unit) =
      (.ok (), ⟨5, 60, .CLOSED, 0, some 0, 0⟩, 1)) ∧
    ((⟨5, 60, .CLOSED, 0, none, 0⟩ : CircuitBreaker).call 7
        (Except.error () : Except Unit Unit) =
      (.fnError (), ⟨5, 60, .CLOSED, 1, some 7, 0⟩, 1)) ∧
    ((⟨1, 60, .CLOSED, 0, none, 0⟩ : CircuitBreaker).call 7
        (Except.error () : Except Unit Unit) =
      (.fnError (), ⟨1, 60, .OPEN, 1, some 7, 0⟩, 1)) ∧
    ((⟨5, 60, .OPEN, 5, some 0, 0⟩ : CircuitBreaker).call 50
        (Except.ok () : Except Unit Unit) =
      (.breakerOpen (breakerOpenError ⟨5, 60, .OPEN, 5, some 0, 0⟩),
       ⟨5, 60, .OPEN, 5, some 0, 0⟩, 0)) ∧
    ((⟨5, 60, .OPEN, 5, some 0, 0⟩ : CircuitBreaker).call 60
        (Except.ok () : Except Unit Unit) =
      (.ok (), ⟨5, 60, .CLOSED, 0, some 0, 1⟩, 1)) ∧
    ((⟨5, 60, .OPEN, 5, some 0, 0⟩ : CircuitBreaker).call 60
        (Except.error () : Except Unit Unit) =
      (.fnError (), ⟨5, 60, .OPEN, 6, some 60, 0⟩, 1)) ∧
    ((⟨5, 60, .HALF_OPEN, 5, some 0, 2⟩ : CircuitBreaker).call 61
        (Except.ok () : Except Unit Unit) =
      (.ok (), ⟨5, 60, .CLOSED, 0, some 0, 3⟩, 1)) ∧
    ((⟨5, 60, .HALF_OPEN, 5, some 0, 0⟩ : CircuitBreaker).call 61
        (Except.error () : Except Unit Unit) =
      (.fnError (), ⟨5, 60, .OPEN, 6, some 61, 0⟩, 1)) :=
  ⟨C4_circuit_transitions.1 5 60,
   C4_circuit_transitions.2.1 Unit Unit ⟨5, 60, .CLOSED, 3, some 0, 0⟩ 7 () rfl,
   C4_circuit_transitions.2.2.1 Unit Unit ⟨5, 60, .CLOSED, 0, none, 0⟩ 7 () rfl (by decide),
   C4_circuit_transitions.2.2.2.1 Unit Unit ⟨1, 60, .CLOSED, 0, none, 0⟩ 7 () rfl (by decide),
   C4_circuit_transitions.2.2.2.2.1 Unit Unit ⟨5, 60, .OPEN, 5, some 0, 0⟩ 50
     (Except.ok ()) rfl (by decide),
   C4_circuit_transitions.2.2.2.2.2.1 Unit Unit ⟨5, 60, .OPEN, 5, some 0, 0⟩ 60 () rfl
     (by decide),
   C4_circuit_transitions.2.2.2.2.2.2.1 Unit Unit ⟨5, 60, .OPEN, 5, some 0, 0⟩ 60 () rfl
     (by decide),
   C4_circuit_transitions.2.2.2.2.2.2.2.1 Unit Unit ⟨5, 60, .HALF_OPEN, 5, some 0, 2⟩ 61
     () rfl,
   C4_circuit_transitions.2.2.2.2.2.2.2.2 Unit Unit ⟨5, 60, .HALF_OPEN, 5, some 0, 0⟩ 61
     () rfl⟩

/-- Helper: the tenacity loop invokes the wrapped function at most
`rem + 1` times. -/
theorem tenacityLoop_invocations_le {α : Type} (p : PyExc → Bool)
    (ws : PyExc → List ℚ) (wait : Nat → ℚ) (f : Nat → Except PyExc α) :
    ∀ rem k, (tenacityLoop p ws wait f k rem).2.1 ≤ rem + 1 := by
  intro rem
  induction rem with
  | zero =>
      intro k
      cases h : f k <;> simp [tenacityLoop, h]
  | succ rem ih =>
      intro k
      cases h : f k with
      | ok a => simp [tenacityLoop, h]
      | error e =>
          by_cases hp : p e = true
          · have := ih (k + 1)
            simp [tenacityLoop, h, hp]
            omega
          · simp [tenacityLoop, h, hp]

/-- Helper: with no retries remaining the loop invokes the function exactly
once. -/
theorem tenacityLoop_zero (α : Type) (p : PyExc → Bool)
    (ws : PyExc → List ℚ) (wait : Nat → ℚ) (f : Nat → Except PyExc α) (k : Nat) :
    (tenacityLoop p ws wait f k 0).2.1 = 1 := by
  cases h : f k <;> simp [tenacityLoop, h]

/-- Helper: when every attempt in the budget fails with an exception the
retry predicate accepts, the loop's outcome is exactly the outcome of the
last invocation — the original exception, not a wrapper. -/
theorem tenacityLoop_all_fail {α : Type} (p : PyExc → Bool)
    (ws : PyExc → List ℚ) (wait : Nat → ℚ) (f : Nat → Except PyExc α) :
    ∀ rem k,
      (∀ j, j ≤ rem → ∃ e, f (k + j) = .error e ∧ p e = true) →
      (tenacityLoop p ws wait f k rem).1 = f (k + rem) := by
  intro rem
  induction rem with
  | zero =>
      intro k h
      obtain ⟨e, hf, _⟩ := h 0 (Nat.le_refl 0)
      simp only [Nat.add_zero] at hf ⊢
      simp [tenacityLoop, hf]
  | succ rem ih =>
      intro k h
      obtain ⟨e, hf, hp⟩ := h 0 (Nat.zero_le _)
      simp only [Nat.add_zero] at hf
      have ihr := ih (k + 1) (fun j hj => by
        obtain ⟨e', hf', hp'⟩ := h (j + 1) (by omega)
        exact ⟨e', by rw [← hf']; ring_nf, hp'⟩)
      simp [tenacityLoop, hf, hp, ihr]
      ring_nf

/-- C5: a `retry_with_backoff(max_retries = m)`-decorated callable invokes
the wrapped function at most `m + 1` times; `max_retries = 0` means exactly
one attempt; when every attempt fails with a transient (retried) exception
the final outcome is the last attempt's exception re-raised unmodified; and
with `max_retries = 2` a function failing transiently twice then succeeding
is invoked exactly 3 times and its success value is returned. -/
theorem C5_retry_budget :
    (∀ (α : Type) (m : Nat) (iw mw base : ℚ) (f : Nat → Except PyExc α),
      (retry_with_backoff_run m iw mw base f).2.1 ≤ m + 1) ∧
    (∀ (α : Type) (iw mw base : ℚ) (f : Nat → Except PyExc α),
      (retry_with_backoff_run 0 iw mw base f).2.1 = 1) ∧
    (∀ (α : Type) (m : Nat) (iw mw base : ℚ) (f : Nat → Except PyExc α),
      (∀ j, j ≤ m → ∃ e, f j = .error e ∧ e.isAPIErrorFamily = true) →
      (retry_with_backoff_run m iw mw base f).1 = f m) ∧
    ((retry_with_backoff_run 2 1 60 2 (fun k =>
        if k < 2 then
          .error (.rateLimit (mkRateLimitError "Rate limit exceeded" (some 5) none))
        else .ok (42 : Nat))).2.1 = 3 ∧
     (retry_with_backoff_run 2 1 60 2 (fun k =>
        if k < 2 then
          .error (.rateLimit (mkRateLimitError "Rate limit exceeded" (some 5) none))
        else .ok (42 : Nat))).1 = .ok 42) := by
  refine ⟨?_, ?_, ?_, by decide, by decide⟩
  · intro α m iw mw base f
    exact tenacityLoop_invocations_le _ _ _ f m 0
  · intro α iw mw base f
    exact tenacityLoop_zero α _ _ _ f 0
  · intro α m iw mw base f h
    have := tenacityLoop_all_fail PyExc.isAPIErrorFamily backoff_wrapper_sleep
      (fun k => wait_exponential iw mw base (k + 1)) f m 0
      (fun j hj => by simpa using h j hj)
    simpa [retry_with_backoff_run] using this

/-- Witness for C5, discharging the all-transient-failure hypothesis at a
function that always raises a rate-limit error. -/
theorem C5_retry_budget_witness :
    (retry_with_backoff_run 2 1 60 2 (fun _ =>
        (.error (.rateLimit (mkRateLimitError "Rate limit exceeded" none none)) :
          Except PyExc Nat))).1 =
      .error (.rateLimit (mkRateLimitError "Rate limit exceeded" none none)) :=
  C5_retry_budget.2.2.1 Nat 2 1 60 2
    (fun _ => .error (.rateLimit (mkRateLimitError "Rate limit exceeded" none none)))
    (fun _ _ => ⟨.rateLimit (mkRateLimitError "Rate limit exceeded" none none), rfl, rfl⟩)

/-- C3 counterexample: under `retry_with_backoff(max_retries=3,
initial_wait=1, max_wait=60, exponential_base=2)`, a function that fails
once with `RateLimitError(retry_after=5)` and then succeeds causes the
sleeps `[5, 1]` before the single retry — the wrapper sleeps the 5-second
hint AND tenacity sleeps the 1-second exponential wait, total 6 — whereas
the claim says the wait equals the hint alone (5), the two never being
summed. -/
theorem C3_counterexample :
    (retry_with_backoff_run 3 1 60 2 (fun k =>
       if k = 0 then
         .error (.rateLimit (mkRateLimitError "Rate limit exceeded" (some 5) none))
       else .ok (7 : Nat))).2.2 = [5, 1] ∧
    ((5 : ℚ) + 1) ≠ spec_retry_wait 1 60 2 (some 5) 0 := by
  constructor
  · simp [retry_with_backoff_run, tenacityLoop, mkRateLimitError, strTruthy,
      backoff_wrapper_sleep, hintSleep, PyExc.isAPIErrorFamily, PyExc.retryAfter,
      wait_exponential]
  · norm_num [spec_retry_wait]

/-- C3 (amended): for every transient failure at attempt index `k` with
retries remaining, the sleeps performed before the next invocation are the
wrapper's retry-after hint sleep followed by tenacity's exponential wait,
and their total is the SUM of the hint (when present and nonzero) and
`max(0, min(initialWait * base^k, maxWait))` — the hint adds to the
exponential term instead of replacing it. -/
theorem C3_backoff_wait_summed {α : Type} (iw mw base : ℚ) (f : Nat → Except PyExc α)
    (k rem : Nat) (e : PyExc)
    (hf : f k = .error e) (hp : e.isAPIErrorFamily = true) :
    (tenacityLoop PyExc.isAPIErrorFamily backoff_wrapper_sleep
        (fun j => wait_exponential iw mw base (j + 1)) f k (rem + 1)).2.2 =
      backoff_wrapper_sleep e ++ wait_exponential iw mw base (k + 1) ::
        (tenacityLoop PyExc.isAPIErrorFamily backoff_wrapper_sleep
          (fun j => wait_exponential iw mw base (j + 1)) f (k + 1) rem).2.2 ∧
    (backoff_wrapper_sleep e ++ [wait_exponential iw mw base (k + 1)]).sum =
      (match e.retryAfter with
       | some r => if r ≠ 0 then (r : ℚ) else 0
       | none => 0) + max 0 (min (iw * base ^ k) mw) := by
  constructor
  · simp [tenacityLoop, hf, hp]
  · simp only [backoff_wrapper_sleep, hp, if_pos, hintSleep, wait_exponential,
      Nat.add_sub_cancel]
    cases hra : e.retryAfter with
    | none => simp
    | some r =>
        by_cases hr : r = 0
        · simp [hr]
        · simp [hr]

/-- Witness for C3 (amended) at the counterexample's concrete run. -/
theorem C3_backoff_wait_summed_witness :
    (tenacityLoop PyExc.isAPIErrorFamily backoff_wrapper_sleep
        (fun j => wait_exponential 1 60 2 (j + 1))
        (fun k =>
          if k = 0 then
            .error (.rateLimit (mkRateLimitError "Rate limit exceeded" (some 5) none))
          else .ok (7 : Nat)) 0 3).2.2 =
      backoff_wrapper_sleep
          (.rateLimit (mkRateLimitError "Rate limit exceeded" (some 5) none)) ++
        wait_exponential 1 60 2 1 ::
          (tenacityLoop PyExc.isAPIErrorFamily backoff_wrapper_sleep
            (fun j => wait_exponential 1 60 2 (j + 1))
            (fun k =>
              if k = 0 then
                .error (.rateLimit (mkRateLimitError "Rate limit exceeded" (some 5) none))
              else .ok (7 : Nat)) 1 2).2.2 ∧
    (backoff_wrapper_sleep
        (.rateLimit (mkRateLimitError "Rate limit exceeded" (some 5) none)) ++
      [wait_exponential 1 60 2 1]).sum =
      (match (PyExc.rateLimit
          (mkRateLimitError "Rate limit exceeded" (some 5) none)).retryAfter with
       | some r => if r ≠ 0 then (r : ℚ) else 0
       | none => 0) + max 0 (min ((1 : ℚ) * 2 ^ 0) 60) :=
  C3_backoff_wait_summed 1 60 2
    (fun k =>
      if k = 0 then
        .error (.rateLimit (mkRateLimitError "Rate limit exceeded" (some 5) none))
      else .ok (7 : Nat)) 0 2
    (.rateLimit (mkRateLimitError "Rate limit exceeded" (some 5) none)) rfl rfl

/-- C2 (code-bug evaluation): an `APIError` with status 404 and
`retryable=False` is classified non-transient by the code's own
`should_retry`, yet both retry decorators invoke the wrapped function 3
times under `max_retries = 2` — tenacity's predicate
`retry_if_exception_type` retries every member of the `APIError` family and
never consults `should_retry` — instead of the single invocation the claim
(and the decorators' own docstrings) require. -/
theorem C2_nonretryable_apierror_is_retried :
    should_retry (.apiError
      { message := "Not found", status_code := some 404, retry_after := none,
        retryable := false, suggested_fix := none }) = false ∧
    (retry_on_transient_errors_run 2 1 60 (fun _ =>
        (.error (.apiError
          { message := "Not found", status_code := some 404, retry_after := none,
            retryable := false, suggested_fix := none }) : Except PyExc Nat))).2.1 = 3 ∧
    (retry_with_backoff_run 2 1 60 2 (fun _ =>
        (.error (.apiError
          { message := "Not found", status_code := some 404, retry_after := none,
            retryable := false, suggested_fix := none }) : Except PyExc Nat))).2.1 = 3 ∧
    (3 : Nat) ≠ 1 := by
  refine ⟨by decide, by decide, by decide, by decide⟩

/-- Helper: ASCII lowercasing is idempotent on characters. -/
theorem char_toLower_idem (c : Char) : c.toLower.toLower = c.toLower := by
  simp only [Char.toLower]
  by_cases h : c.toNat ≥ 65 ∧ c.toNat ≤ 90
  · rw [if_pos h]
    have hv : (c.toNat + 32).isValidChar := Or.inl (by omega)
    have ht : (Char.ofNat (c.toNat + 32)).toNat = c.toNat + 32 := by
      rw [Char.ofNat, dif_pos hv]
      rfl
    rw [if_neg]
    rw [ht]
    omega
  · rw [if_neg h, if_neg h]

/-- Helper: `py_lower` is idempotent. -/
theorem py_lower_idem (s : String) : py_lower (py_lower s) = py_lower s := by
  simp only [py_lower, List.map_map]
  congr 1
  apply List.map_congr_left
  intro c _
  exact char_toLower_idem c

/-- Helper: a successful association-list lookup returns one of the stored
values. -/
theorem lookup_mem_snd {β : Type} (k : String) (v : β) :
    ∀ l : List (String × β), l.lookup k = some v → v ∈ l.map Prod.snd := by
  intro l
  induction l with
  | nil => intro h; simp [List.lookup] at h
  | cons p t ih =>
      obtain ⟨pk, pv⟩ := p
      intro h
      rw [List.lookup] at h
      cases hb : (k == pk) with
      | true =>
          rw [hb] at h
          simp at h
          simp [h]
      | false =>
          rw [hb] at h
          simp at h
          simp [ih h]

/-- Helper: every catalog entry declares a non-empty region list. -/
theorem catalog_regions_nonempty :
    ∀ m ∈ MODEL_METADATA.map Prod.snd, m.available_regions ≠ [] := by decide

/-- Helper: any metadata returned by the case-insensitive lookup has a
non-empty `available_regions`. -/
theorem get_model_metadata_regions_nonempty (mid : String) (md : ModelMetadata)
    (h : get_model_metadata mid = some md) : md.available_regions ≠ [] :=
  catalog_regions_nonempty md (lookup_mem_snd (py_lower mid) md MODEL_METADATA h)

/-- C6: `validate_model_availability` returns True when the model is in the
static catalog and the region is a member of its `available_regions`;
raises `ModelNotFoundError` carrying an empty `available_regions` when the
model is unknown; and raises `ModelNotFoundError` carrying the model's full
configured (non-empty) `available_regions` when the model is known but the
region is not a member. -/
theorem C6_validate_model_availability :
    (∀ (model_id region : String) (md : ModelMetadata),
      get_model_metadata model_id = some md →
      region ∈ md.available_regions →
      validate_model_availability model_id region = .ok true) ∧
    (∀ model_id region : String,
      get_model_metadata model_id = none →
      ∃ err, validate_model_availability model_id region = .error err ∧
        err.available_regions = [] ∧ err.model_id = model_id ∧ err.region = region) ∧
    (∀ (model_id region : String) (md : ModelMetadata),
      get_model_metadata model_id = some md →
      region ∉ md.available_regions →
      ∃ err, validate_model_availability model_id region = .error err ∧
        err.available_regions = md.available_regions ∧
        err.available_regions ≠ [] ∧ err.model_id = model_id ∧ err.region = region) := by
  refine ⟨?_, ?_, ?_⟩
  · intro mid region md h hr
    have h2 : get_model_metadata (py_lower mid) = some md := by
      simpa [get_model_metadata, py_lower_idem] using h
    simp [validate_model_availability, h2, hr]
  · intro mid region h
    have h2 : get_model_metadata (py_lower mid) = none := by
      simpa [get_model_metadata, py_lower_idem] using h
    refine ⟨mkModelNotFoundError ("Model " ++ mid ++ " not found") mid region none none,
      ?_, rfl, rfl, rfl⟩
    simp [validate_model_availability, h2]
  · intro mid region md h hr
    have h2 : get_model_metadata (py_lower mid) = some md := by
      simpa [get_model_metadata, py_lower_idem] using h
    refine ⟨mkModelNotFoundError
      ("Model " ++ mid ++ " not available in region " ++ region) mid region
      (some md.available_regions) none,
      ?_, rfl, get_model_metadata_regions_nonempty mid md h, rfl, rfl⟩
    simp [validate_model_availability, h2, hr]

/-- Witness for C6: the three shapes evaluated on the concrete catalog —
a supported pair, an unknown model, and a known model in an unsupported
region (case-insensitively looked up). -/
theorem C6_validate_model_availability_witness :
    validate_model_availability "gemini-2.5-pro" "global" = .ok true ∧
    (∃ err, validate_model_availability "unknown-model" "us-east5" = .error err ∧
      err.available_regions = [] ∧ err.model_id = "unknown-model" ∧
      err.region = "us-east5") ∧
    (∃ err, validate_model_availability "GEMINI-2.5-PRO" "us-west1" = .error err ∧
      err.available_regions = ["global"] ∧ err.available_regions ≠ [] ∧
      err.model_id = "GEMINI-2.5-PRO" ∧ err.region = "us-west1") := by
  refine ⟨?_, ?_, ?_⟩
  · exact C6_validate_model_availability.1 "gemini-2.5-pro" "global"
      { model_id := "gemini-2.5-pro"
        name := "Gemini 2.5 Pro"
        provider := "google"
        access_pattern := "native_sdk"
        available_regions := ["global"]
        default_region := some "global"
        latest_version := some "latest"
        versions := ["latest"]
        context_window := some "1M+ tokens"
        pricing := some { input := some (1/2), output := some (3/2) }
        capabilities := some ["general-purpose", "code-generation", "reasoning", "multimodal"]
        description := some "Advanced general-purpose model with strong reasoning capabilities, code generation, and multimodal support" }
      rfl (by decide)
  · exact C6_validate_model_availability.2.1 "unknown-model" "us-east5" rfl
  · obtain ⟨err, h1, h2, _, h4, h5⟩ :=
      C6_validate_model_availability.2.2 "GEMINI-2.5-PRO" "us-west1"
        { model_id := "gemini-2.5-pro"
          name := "Gemini 2.5 Pro"
          provider := "google"
          access_pattern := "native_sdk"
          available_regions := ["global"]
          default_region := some "global"
          latest_version := some "latest"
          versions := ["latest"]
          context_window := some "1M+ tokens"
          pricing := some { input := some (1/2), output := some (3/2) }
          capabilities := some ["general-purpose", "code-generation", "reasoning", "multimodal"]
          description := some "Advanced general-purpose model with strong reasoning capabilities, code generation, and multimodal support" }
        rfl (by decide)
    exact ⟨err, h1, h2, by simp [h2], h4, h5⟩

/-- C9: calling `get_available_models` with `use_cache=False` leaves the
registry state (both the cache and the cache-timestamp maps) exactly as it
was and returns the freshly built list, independent of any cache
content. -/
theorem C9_no_cache_frame (reg : ModelRegistry) (project_id : String)
    (region : Option String) (now : Nat) :
    reg.get_available_models project_id region false now = (build_models region, reg) := by
  simp [ModelRegistry.get_available_models]

/-- C10: a `ModelNotFoundError` always exposes `available_regions` as a
list — constructing it with `available_regions=None` (the unknown-model
shape) normalises the field to the empty list, and passing a list stores
that list. -/
theorem C10_available_regions_normalised :
    (∀ (msg mid region : String) (sf : Option String),
      (mkModelNotFoundError msg mid region none sf).available_regions = []) ∧
    (∀ (msg mid region : String) (sf : Option String) (l : List String),
      (mkModelNotFoundError msg mid region (some l) sf).available_regions = l) :=
  ⟨fun _ _ _ _ => rfl, fun _ _ _ _ _ => rfl⟩

/-- C7: `authenticate` returns the cached credential immediately (invoking
no strategy) whenever a valid cached credential exists; on a cache miss it
runs the strategy chain; under AUTO the fixed priority is service_account →
user_credentials → ADC with the first success returned — in particular a
service-account success returns before user-credentials or ADC are ever
invoked — and an explicit method invokes only its own strategy. -/
theorem C7_authenticate_priority :
    (∀ (m : AuthManager) (env : AuthEnv) (now : Nat) (cp : Option String)
        (am : Option AuthMethod) (cc : CachedCredentials),
      m.cached = some cc → cc.is_valid now = true →
      m.authenticate env now cp am = (.ok cc.credentials, m, [])) ∧
    (∀ (m : AuthManager) (env : AuthEnv) (now : Nat) (cp : Option String)
        (am : Option AuthMethod),
      (∀ cc, m.cached = some cc → cc.is_valid now = false) →
      m.authenticate env now cp am = m.authenticate_fresh env now cp am) ∧
    (∀ (m : AuthManager) (env : AuthEnv) (now : Nat) (cp : Option String)
        (c : Credentials) (cc : CachedCredentials),
      m.try_service_account env now cp = .ok (some (c, cc)) →
      m.authenticate_fresh env now cp (some .AUTO) =
        (.ok c, { m with cached := some cc }, [.service_account])) ∧
    (∀ (m : AuthManager) (env : AuthEnv) (now : Nat) (cp : Option String)
        (c : Credentials) (cc : CachedCredentials),
      m.try_service_account env now cp = .ok none →
      try_user_credentials env now = some (c, cc) →
      m.authenticate_fresh env now cp (some .AUTO) =
        (.ok c, { m with cached := some cc }, [.service_account, .user_credentials])) ∧
    (∀ (m : AuthManager) (env : AuthEnv) (now : Nat) (cp : Option String)
        (c : Credentials) (cc : CachedCredentials),
      m.try_service_account env now cp = .ok none →
      try_user_credentials env now = none →
      try_adc env now = some (c, cc) →
      m.authenticate_fresh env now cp (some .AUTO) =
        (.ok c, { m with cached := some cc },
         [.service_account, .user_credentials, .adc])) ∧
    (∀ (m : AuthManager) (env : AuthEnv) (now : Nat) (cp : Option String),
      m.try_service_account env now cp = .ok none →
      try_user_credentials env now = none →
      try_adc env now = none →
      m.authenticate_fresh env now cp (some .AUTO) =
        (.error no_credentials_error, m,
         [.service_account, .user_credentials, .adc])) ∧
    (∀ (m : AuthManager) (env : AuthEnv) (now : Nat) (cp : Option String),
      (m.authenticate_fresh env now cp (some .SERVICE_ACCOUNT)).2.2 =
        [.service_account] ∧
      (m.authenticate_fresh env now cp (some .USER_CREDENTIALS)).2.2 =
        [.user_credentials] ∧
      (m.authenticate_fresh env now cp (some .ADC)).2.2 = [.adc]) := by
  refine ⟨?_, ?_, ?_, ?_, ?_, ?_, ?_⟩
  · intro m env now cp am cc hc hv
    simp [AuthManager.authenticate, hc, hv]
  · intro m env now cp am h
    cases hc : m.cached with
    | none => simp [AuthManager.authenticate, hc]
    | some cc => simp [AuthManager.authenticate, hc, h cc hc]
  · intro m env now cp c cc h
    simp [AuthManager.authenticate_fresh, h]
  · intro m env now cp c cc hsa hu
    simp [AuthManager.authenticate_fresh, hsa, hu]
  · intro m env now cp c cc hsa hu ha
    simp [AuthManager.authenticate_fresh, hsa, hu, ha]
  · intro m env now cp hsa hu ha
    simp [AuthManager.authenticate_fresh, hsa, hu, ha]
  · intro m env now cp
    refine ⟨?_, ?_, ?_⟩
    · rcases h : m.try_service_account env now cp with e | r
      · simp [AuthManager.authenticate_fresh, h]
      · cases r with
        | none => simp [AuthManager.authenticate_fresh, h]
        | some pr => cases pr with
          | mk c cc => simp [AuthManager.authenticate_fresh, h]
    · rcases h : try_user_credentials env now with _ | ⟨c, cc⟩ <;>
        simp [AuthManager.authenticate_fresh, h]
    · rcases h : try_adc env now with _ | ⟨c, cc⟩ <;>
        simp [AuthManager.authenticate_fresh, h]

/-- Witness for C7: concrete environments exercising the cache hit, the
cache miss, each AUTO-chain outcome, and the explicit methods. -/
theorem C7_authenticate_priority_witness :
    ((⟨none, some (mkCachedCredentials ⟨none, false, false, 1⟩ "adc" none 0)⟩ :
        AuthManager).authenticate
      ⟨fun _ => ⟨false, false, .otherFailure⟩, none, none, true⟩ 10 none none =
      (.ok (⟨none, false, false, 1⟩ : Credentials),
       ⟨none, some (mkCachedCredentials ⟨none, false, false, 1⟩ "adc" none 0)⟩, [])) ∧
    ((⟨none, none⟩ : AuthManager).authenticate
      ⟨fun _ => ⟨false, false, .otherFailure⟩, none, none, true⟩ 10 none none =
      (⟨none, none⟩ : AuthManager).authenticate_fresh
        ⟨fun _ => ⟨false, false, .otherFailure⟩, none, none, true⟩ 10 none none) ∧
    ((⟨none, none⟩ : AuthManager).authenticate_fresh
      ⟨fun _ => ⟨true, true, .ok ⟨none, false, true, 7⟩⟩, some "sa.json", none, true⟩
      10 none (some .AUTO) =
      (.ok (⟨none, false, true, 7⟩ : Credentials),
       ⟨none, some (mkCachedCredentials ⟨none, false, true, 7⟩ "service_account"
          (some "sa.json") 10)⟩,
       [.service_account])) ∧
    ((⟨none, none⟩ : AuthManager).authenticate_fresh
      ⟨fun _ => ⟨false, false, .otherFailure⟩, none, some ⟨none, false, false, 3⟩, true⟩
      10 none (some .AUTO) =
      (.ok (⟨none, false, false, 3⟩ : Credentials),
       ⟨none, some (mkCachedCredentials ⟨none, false, false, 3⟩ "user_credentials"
          none 10)⟩,
       [.service_account, .user_credentials])) ∧
    ((⟨none, none⟩ : AuthManager).authenticate_fresh
      ⟨fun _ => ⟨false, false, .otherFailure⟩, none, some ⟨none, false, true, 4⟩, true⟩
      10 none (some .AUTO) =
      (.ok (⟨none, false, true, 4⟩ : Credentials),
       ⟨none, some (mkCachedCredentials ⟨none, false, true, 4⟩ "adc" none 10)⟩,
       [.service_account, .user_credentials, .adc])) ∧
    ((⟨none, none⟩ : AuthManager).authenticate_fresh
      ⟨fun _ => ⟨false, false, .otherFailure⟩, none, none, true⟩ 10 none (some .AUTO) =
      (.error no_credentials_error, ⟨none, none⟩,
       [.service_account, .user_credentials, .adc])) :=
  ⟨C7_authenticate_priority.1
      ⟨none, some (mkCachedCredentials ⟨none, false, false, 1⟩ "adc" none 0)⟩
      ⟨fun _ => ⟨false, false, .otherFailure⟩, none, none, true⟩ 10 none none
      (mkCachedCredentials ⟨none, false, false, 1⟩ "adc" none 0) rfl rfl,
   C7_authenticate_priority.2.1 ⟨none, none⟩
      ⟨fun _ => ⟨false, false, .otherFailure⟩, none, none, true⟩ 10 none none
      (fun cc h => by cases h),
   C7_authenticate_priority.2.2.1 ⟨none, none⟩
      ⟨fun _ => ⟨true, true, .ok ⟨none, false, true, 7⟩⟩, some "sa.json", none, true⟩
      10 none ⟨none, false, true, 7⟩
      (mkCachedCredentials ⟨none, false, true, 7⟩ "service_account" (some "sa.json") 10)
      rfl,
   C7_authenticate_priority.2.2.2.1 ⟨none, none⟩
      ⟨fun _ => ⟨false, false, .otherFailure⟩, none, some ⟨none, false, false, 3⟩, true⟩
      10 none ⟨none, false, false, 3⟩
      (mkCachedCredentials ⟨none, false, false, 3⟩ "user_credentials" none 10) rfl rfl,
   C7_authenticate_priority.2.2.2.2.1 ⟨none, none⟩
      ⟨fun _ => ⟨false, false, .otherFailure⟩, none, some ⟨none, false, true, 4⟩, true⟩
      10 none ⟨none, false, true, 4⟩
      (mkCachedCredentials ⟨none, false, true, 4⟩ "adc" none 10) rfl rfl rfl,
   C7_authenticate_priority.2.2.2.2.2.1 ⟨none, none⟩
      ⟨fun _ => ⟨false, false, .otherFailure⟩, none, none, true⟩ 10 none rfl rfl rfl⟩

/-- Helper: when `_try_service_account` with an explicitly resolved path
raises, the path names an existing entry that is either not a regular file
or fails to parse. -/
theorem try_sa_explicit_path_error (m : AuthManager) (env : AuthEnv) (now : Nat)
    (p : String) (e : AuthenticationError)
    (h : m.try_service_account env now (some p) = .error e) :
    (env.files p).file_exists = true ∧
      ((env.files p).is_file = false ∨ (env.files p).parse = .malformed) := by
  unfold AuthManager.try_service_account at h
  by_cases he : (env.files p).file_exists = true
  · by_cases hif : (env.files p).is_file = true
    · refine ⟨he, ?_⟩
      cases hparse : (env.files p).parse with
      | ok c =>
          simp [he, hif, hparse] at h
          split at h <;> simp at h
      | malformed => exact Or.inr rfl
      | otherFailure => simp [he, hif, hparse] at h
    · rw [Bool.not_eq_true] at hif
      exact ⟨he, Or.inl hif⟩
  · rw [Bool.not_eq_true] at he
    simp [he] at h

/-- C8: in the service_account strategy, no resolvable path or a missing
file skips (and under AUTO the chain continues to the next strategy), while
a path that exists but is not a regular file, or a key file that fails to
parse, raises `AuthenticationError` which `authenticate` propagates
immediately without trying the remaining strategies; moreover those two
conditions are the only way the strategy can fail fatally rather than
skip. -/
theorem C8_service_account_fatal_vs_skip :
    (∀ (m : AuthManager) (env : AuthEnv) (now : Nat),
      m.get_credentials_path env = none →
      m.try_service_account env now none = .ok none) ∧
    (∀ (m : AuthManager) (env : AuthEnv) (now : Nat) (p : String),
      (env.files p).file_exists = false →
      m.try_service_account env now (some p) = .ok none) ∧
    (∀ (m : AuthManager) (env : AuthEnv) (now : Nat) (p : String),
      (env.files p).file_exists = true → (env.files p).is_file = false →
      m.try_service_account env now (some p) = .error
        { message := "Service account path is not a file: " ++ p
          suggested_fix := some "Verify the path points to a valid service account key file"
          code := some "AUTH_002" }) ∧
    (∀ (m : AuthManager) (env : AuthEnv) (now : Nat) (p : String),
      (env.files p).file_exists = true → (env.files p).is_file = true →
      (env.files p).parse = .malformed →
      m.try_service_account env now (some p) = .error
        { message := "Service account key file is invalid or corrupted"
          suggested_fix := some "Verify service account key file is valid JSON"
          code := some "AUTH_002" }) ∧
    (∀ (m : AuthManager) (env : AuthEnv) (now : Nat) (cp : Option String)
        (e : AuthenticationError),
      m.try_service_account env now cp = .error e →
      m.authenticate_fresh env now cp (some .AUTO) = (.error e, m, [.service_account])) ∧
    (∀ (m : AuthManager) (env : AuthEnv) (now : Nat) (cp : Option String),
      m.try_service_account env now cp = .ok none →
      Strategy.user_credentials ∈ (m.authenticate_fresh env now cp (some .AUTO)).2.2) ∧
    (∀ (m : AuthManager) (env : AuthEnv) (now : Nat) (cp : Option String)
        (e : AuthenticationError),
      m.try_service_account env now cp = .error e →
      ∃ p, (cp = some p ∨ (cp = none ∧ m.get_credentials_path env = some p)) ∧
        (env.files p).file_exists = true ∧
        ((env.files p).is_file = false ∨ (env.files p).parse = .malformed)) := by
  refine ⟨?_, ?_, ?_, ?_, ?_, ?_, ?_⟩
  · intro m env now h
    simp [AuthManager.try_service_account, h]
  · intro m env now p h
    simp [AuthManager.try_service_account, h]
  · intro m env now p h1 h2
    simp [AuthManager.try_service_account, h1, h2]
  · intro m env now p h1 h2 h3
    simp [AuthManager.try_service_account, h1, h2, h3]
  · intro m env now cp e h
    simp [AuthManager.authenticate_fresh, h]
  · intro m env now cp h
    cases hu : try_user_credentials env now with
    | some pr =>
        cases pr with
        | mk c cc => simp [AuthManager.authenticate_fresh, h, hu]
    | none =>
        cases ha : try_adc env now with
        | some pr =>
            cases pr with
            | mk c cc => simp [AuthManager.authenticate_fresh, h, hu, ha]
        | none => simp [AuthManager.authenticate_fresh, h, hu, ha]
  · intro m env now cp e h
    rcases cp with _ | q
    · unfold AuthManager.try_service_account at h
      rcases hgp : m.get_credentials_path env with _ | p
      · rw [hgp] at h
        exact Except.noConfusion h
      · rw [hgp] at h
        exact ⟨p, Or.inr ⟨rfl, rfl⟩, try_sa_explicit_path_error m env now p e h⟩
    · exact ⟨q, Or.inl rfl, try_sa_explicit_path_error m env now q e h⟩

/-- Witness for C8 at concrete filesystems: an unresolvable path, a missing
file, a directory path, a corrupt key file, the fatal short-circuit under
AUTO, and the skip-continues case. -/
theorem C8_service_account_fatal_vs_skip_witness :
    ((⟨none, none⟩ : AuthManager).try_service_account
      ⟨fun _ => ⟨true, true, .otherFailure⟩, none, none, true⟩ 5 none = .ok none) ∧
    ((⟨none, none⟩ : AuthManager).try_service_account
      ⟨fun _ => ⟨false, false, .otherFailure⟩, none, none, true⟩ 5 (some "missing.json") =
      .ok none) ∧
    ((⟨none, none⟩ : AuthManager).try_service_account
      ⟨fun _ => ⟨true, false, .otherFailure⟩, none, none, true⟩ 5 (some "keydir") =
      .error
        { message := "Service account path is not a file: keydir"
          suggested_fix := some "Verify the path points to a valid service account key file"
          code := some "AUTH_002" }) ∧
    ((⟨none, none⟩ : AuthManager).try_service_account
      ⟨fun _ => ⟨true, true, .malformed⟩, none, none, true⟩ 5 (some "bad.json") =
      .error
        { message := "Service account key file is invalid or corrupted"
          suggested_fix := some "Verify service account key file is valid JSON"
          code := some "AUTH_002" }) ∧
    ((⟨none, none⟩ : AuthManager).authenticate_fresh
      ⟨fun _ => ⟨true, true, .malformed⟩, none, none, true⟩ 5 (some "bad.json")
      (some .AUTO) =
      (.error
        { message := "Service account key file is invalid or corrupted"
          suggested_fix := some "Verify service account key file is valid JSON"
          code := some "AUTH_002" }, ⟨none, none⟩, [.service_account])) ∧
    (Strategy.user_credentials ∈
      ((⟨none, none⟩ : AuthManager).authenticate_fresh
        ⟨fun _ => ⟨false, false, .otherFailure⟩, none, none, true⟩ 5 (some "missing.json")
        (some .AUTO)).2.2) ∧
    (∃ p, ((some "bad.json" : Option String) = some p ∨
        ((some "bad.json" : Option String) = none ∧
          (⟨none, none⟩ : AuthManager).get_credentials_path
            ⟨fun _ => ⟨true, true, .malformed⟩, none, none, true⟩ = some p)) ∧
      (((⟨fun _ => ⟨true, true, .malformed⟩, none, none, true⟩ : AuthEnv).files p).file_exists = true) ∧
      ((((⟨fun _ => ⟨true, true, .malformed⟩, none, none, true⟩ : AuthEnv).files p).is_file = false) ∨
        (((⟨fun _ => ⟨true, true, .malformed⟩, none, none, true⟩ : AuthEnv).files p).parse = .malformed))) :=
  ⟨C8_service_account_fatal_vs_skip.1 ⟨none, none⟩
      ⟨fun _ => ⟨true, true, .otherFailure⟩, none, none, true⟩ 5 rfl,
   C8_service_account_fatal_vs_skip.2.1 ⟨none, none⟩
      ⟨fun _ => ⟨false, false, .otherFailure⟩, none, none, true⟩ 5 "missing.json" rfl,
   C8_service_account_fatal_vs_skip.2.2.1 ⟨none, none⟩
      ⟨fun _ => ⟨true, false, .otherFailure⟩, none, none, true⟩ 5 "keydir" rfl rfl,
   C8_service_account_fatal_vs_skip.2.2.2.1 ⟨none, none⟩
      ⟨fun _ => ⟨true, true, .malformed⟩, none, none, true⟩ 5 "bad.json" rfl rfl rfl,
   C8_service_account_fatal_vs_skip.2.2.2.2.1 ⟨none, none⟩
      ⟨fun _ => ⟨true, true, .malformed⟩, none, none, true⟩ 5 (some "bad.json") _ rfl,
   C8_service_account_fatal_vs_skip.2.2.2.2.2.1 ⟨none, none⟩
      ⟨fun _ => ⟨false, false, .otherFailure⟩, none, none, true⟩ 5 (some "missing.json")
      rfl,
   C8_service_account_fatal_vs_skip.2.2.2.2.2.2 ⟨none, none⟩
      ⟨fun _ => ⟨true, true, .malformed⟩, none, none, true⟩ 5 (some "bad.json") _ rfl⟩

end VertexSpecAdapter
